import Mathlib

/-!
Shallow embedding of `src/api.py` (getaireu/REST-API): the session /
authentication lifecycle with transparent reauthentication (`API`) and the
dirty-tracking device state mirror (`Device`).

Modelling conventions:
* JSON values are the inductive `JVal`; the tagged byte-buffer object
  `{'type': 'Buffer', 'data': [...]}` is the constructor `JVal.vBuf`.
* Python dicts are association lists with Python update semantics
  (`dictSet` replaces the value at the first occurrence of the key,
  otherwise appends).
* HTTP traffic is passed in explicitly: each request-level function takes
  the scripted responses it would observe on the wire.  `Option` encodes
  "the transport raised `requests.RequestException`" (`none`) versus a
  received response (`some`).
* A Python exception that the source does not catch is `Except.error`
  with the exception's name as the message.
-/

namespace GetAir

/-- JSON-typed wire value.  `vBuf bytes` models the tagged byte-buffer
object `{'type': 'Buffer', 'data': bytes}` used for device identifiers and
time-profile data. -/
inductive JVal where
  | vNull
  | vBool (b : Bool)
  | vNum (n : Int)
  | vStr (s : String)
  | vBuf (bytes : List Nat)
deriving DecidableEq, Repr

/-- Python `d[k]` lookup on a dict modelled as an association list. -/
def dictGet {α : Type} : List (String × α) → String → Option α
  | [], _ => none
  | (k', v) :: rest, k => if k' = k then some v else dictGet rest k

/-- Python `d[k] = v`: replace the value at the first occurrence of `k`,
otherwise append the new binding (dicts built this way have unique keys). -/
def dictSet {α : Type} : List (String × α) → String → α → List (String × α)
  | [], k, v => [(k, v)]
  | (k', v') :: rest, k, v =>
      if k' = k then (k, v) :: rest else (k', v') :: dictSet rest k v

/-- Number of entries of the association list carrying key `k`. -/
def countKey {α : Type} (l : List (String × α)) (k : String) : Nat :=
  (l.filter (fun p => p.1 = k)).length

/-- Value of a single hexadecimal digit, as accepted by Python `int(·, 16)`
on plain hex strings (`0-9`, `a-f`, `A-F`). -/
def hexCharVal (c : Char) : Option Nat :=
  if '0' ≤ c ∧ c ≤ '9' then some (c.toNat - '0'.toNat)
  else if 'a' ≤ c ∧ c ≤ 'f' then some (c.toNat - 'a'.toNat + 10)
  else if 'A' ≤ c ∧ c ≤ 'F' then some (c.toNat - 'A'.toNat + 10)
  else none

/-- Python `[int(device_id[i:i+2], 16) for i in range(0, len(device_id), 2)]`
from `Device.__init__`: the identifier string is cut into two-character
slices (a trailing single character makes a one-character slice), each parsed
as hexadecimal.  `none` models the `ValueError` that `int(·, 16)` raises on a
non-hex slice. -/
def parsePairs : List Char → Option (List Nat)
  | [] => some []
  | [c] => (hexCharVal c).map (fun a => [a])
  | c1 :: c2 :: rest =>
      match hexCharVal c1, hexCharVal c2 with
      | some a, some b => (parsePairs rest).map (fun l => (16 * a + b) :: l)
      | _, _ => none

/-- Fuel-indexed helper for `hexChars` (`n / 16 < n`, so fuel `n + 1`
always suffices and the zero-fuel arm is unreachable). -/
def hexCharsAux : Nat → Nat → List Char
  | 0, _ => []
  | fuel + 1, n =>
      if n < 16 then [Nat.digitChar n]
      else hexCharsAux fuel (n / 16) ++ [Nat.digitChar (n % 16)]

/-- Lowercase hexadecimal digits of `n`, most significant first, as produced
by Python `format(n, 'x')` (no leading zeros; `0` renders as `"0"`). -/
def hexChars (n : Nat) : List Char := hexCharsAux (n + 1) n

/-- Python `f'{b:02x}'`: lowercase hex of `b`, zero-padded to width 2. -/
def fmt02x (b : Nat) : List Char :=
  let ds := hexChars b
  if ds.length < 2 then '0' :: ds else ds

/-- Python `attr.replace("_", "-")` (single-character pattern, so a
character-wise map). -/
def dashify (s : String) : String :=
  String.mk (s.data.map (fun c => if c = '_' then '-' else c))

/-- Python `deviceID.replace(":", "").upper()` from `API.get_device`
(ASCII inputs, so `upper()` is a character-wise `Char.toUpper`). -/
def normalizeId (s : String) : String :=
  String.mk ((s.data.filter (fun c => c ≠ ':')).map Char.toUpper)

/-- Uppercase hexadecimal digit test, for stating the canonical-identifier
property. -/
def isUpperHexDigit (c : Char) : Bool :=
  "0123456789ABCDEF".data.contains c

/-!
Resilient request executor (`API._request_get` / `API._request_put`).

A call is driven by two scripts:
* `responses`: the HTTP status codes received by the successive
  `requests.get` / `requests.put` attempts this call performs; an exhausted
  script models a `requests.RequestException` on the next attempt (caught
  by the source, which then returns `None`).
* `conns`: the outcomes of the successive `self.connect()` calls made from
  the 401 branch (an exhausted script models a failed reconnect).

The returned triple is `(result, reauths, attempts)`: the value the Python
function returns (`some ()` for a decoded JSON body, `none` for Python
`None`), the number of `connect()` invocations, and the number of HTTP
attempts issued for this logical call (retries are `attempts - 1`).
-/

/-- Model of `API._request_get`: 200 returns the decoded body; 401 with
`AUTO_RECONNECT` reconnects and, on success, re-issues the same call by
recursion; every other status (and a transport error) yields `None`. -/
def request_get (AUTO_RECONNECT : Bool) :
    List Nat → List Bool → Option Unit × Nat × Nat
  | [], _ => (none, 0, 1)
  | status :: rest, conns =>
      if status = 200 then (some (), 0, 1)
      else if status = 401 ∧ AUTO_RECONNECT then
        match conns with
        | [] => (none, 1, 1)
        | c :: cs =>
            if c then
              let r := request_get AUTO_RECONNECT rest cs
              (r.1, r.2.1 + 1, r.2.2 + 1)
            else (none, 1, 1)
      else (none, 0, 1)

/-- Model of `API._request_put`: as `request_get`, except that a 204
response makes the source execute a bare `return`, i.e. Python `None`
(success with no payload, indistinguishable from failure in the return
value). -/
def request_put (AUTO_RECONNECT : Bool) :
    List Nat → List Bool → Option Unit × Nat × Nat
  | [], _ => (none, 0, 1)
  | status :: rest, conns =>
      if status = 200 then (some (), 0, 1)
      else if status = 204 then (none, 0, 1)
      else if status = 401 ∧ AUTO_RECONNECT then
        match conns with
        | [] => (none, 1, 1)
        | c :: cs =>
            if c then
              let r := request_put AUTO_RECONNECT rest cs
              (r.1, r.2.1 + 1, r.2.2 + 1)
            else (none, 1, 1)
      else (none, 0, 1)

/-!
Session authenticator (`API._load_credentials`, `API._get_session_token`,
`API._get_api_token`, `API.connect`).
-/

/-- Body of the auth endpoint's JSON response (`status`, `sessionToken`
fields; `none` = field absent). -/
structure AuthBody where
  status : Option String
  sessionToken : Option String
deriving DecidableEq, Repr

/-- Body of the token endpoint's JSON response (`token` field;
`none` = field absent). -/
structure TokenBody where
  token : Option String
deriving DecidableEq, Repr

/-- Environment of one `connect()` run: the credential source (`none` =
unreadable file / bad JSON) and the scripted responses of the two
endpoints (`none` = `requests.RequestException`; otherwise status code and
parsed body). -/
structure HEnv where
  creds : Option (List (String × String))
  authResp : Option (Nat × AuthBody)
  tokenResp : Option (Nat × TokenBody)
deriving DecidableEq, Repr

/-- The four keys `API._load_credentials` insists on. -/
def requiredKeys : List String := ["auth_url", "api_url", "username", "password"]

/-- Model of `API._load_credentials`: an unreadable file or a file missing
any required key is logged and degraded to the empty dict `{}` (the
`_auth_url` / `_api_url` assignments are not tracked; no claim reads them). -/
def load_credentials (src : Option (List (String × String))) : List (String × String) :=
  match src with
  | none => []
  | some credentials =>
      if requiredKeys.all (fun k => (dictGet credentials k).isSome) then credentials
      else []

/-- Python truthiness of a string-valued token (`None` and `""` are falsy). -/
def tokTruthy : Option String → Bool
  | none => false
  | some s => s != ""

/-- Model of `API._get_session_token`.  The payload
`{"username": credentials['username'], "password": credentials['password']}`
is built *before* the `try` block, so a missing key raises an uncaught
`KeyError` and no POST is issued.  Inside the `try`, only
`requests.RequestException` is caught; a 200/SUCCESS body lacking the
`sessionToken` field would also raise `KeyError` uncaught.  Returns the
function's result (exception or returned token) paired with whether the
POST was issued. -/
def get_session_token (src : Option (List (String × String)))
    (resp : Option (Nat × AuthBody)) : Except String (Option String) × Bool :=
  let credentials := load_credentials src
  match dictGet credentials "username" with
  | none => (.error "KeyError", false)
  | some _u =>
      match dictGet credentials "password" with
      | none => (.error "KeyError", false)
      | some _p =>
          match resp with
          | none => (.ok none, true)
          | some (status, body) =>
              if status = 200 then
                if body.status = some "SUCCESS" then
                  match body.sessionToken with
                  | some t => (.ok (some t), true)
                  | none => (.error "KeyError", true)
                else (.ok none, true)
              else (.ok none, true)

/-- Model of `API._get_api_token`, given the current `self._session_token`.
On a 200 response whose body has a truthy `token` field the source stores
the API token and — by a quirk of the original — returns
`self._session_token`; otherwise it returns `None`.  The result is
`(return value, api token stored)`. -/
def get_api_token (session_token : Option String)
    (resp : Option (Nat × TokenBody)) : Option String × Option String :=
  match resp with
  | none => (none, none)
  | some (status, body) =>
      if status = 200 then
        match body.token with
        | some t => if t != "" then (session_token, some t) else (none, none)
        | none => (none, none)
      else (none, none)

/-- Model of `API.connect`:
`if not self._get_session_token() or not self._get_api_token(): return None`.
The `or` short-circuits, so the token endpoint is contacted only when the
session-token exchange returned a truthy token.  The result records whether
the API-token exchange was attempted; an uncaught exception from
`_get_session_token` propagates. -/
def connect (env : HEnv) : Except String (Option Unit × Bool) :=
  match (get_session_token env.creds env.authResp).1 with
  | .error e => .error e
  | .ok tok =>
      if tokTruthy tok then
        let r := get_api_token tok env.tokenResp
        if tokTruthy r.1 then .ok (some (), true) else .ok (none, true)
      else .ok (none, false)

/-- Whether `connect` contacted the token endpoint (API-token exchange). -/
def connectApiAttempted (env : HEnv) : Bool :=
  match connect env with
  | .ok (_, attempted) => attempted
  | .error _ => false

/-- Whether `connect` reported success (returned the API object). -/
def connectSuccess (env : HEnv) : Bool :=
  match connect env with
  | .ok (some _, _) => true
  | _ => false

/-- Whether the session-token exchange yielded a (truthy) session token. -/
def sessionYielded (env : HEnv) : Bool :=
  match (get_session_token env.creds env.authResp).1 with
  | .ok tok => tokTruthy tok
  | .error _ => false

/-- Whether the API-token exchange stored an API token (given the session
token the connect run would hold at that point). -/
def apiYielded (env : HEnv) : Bool :=
  match (get_session_token env.creds env.authResp).1 with
  | .ok tok => ((get_api_token tok env.tokenResp).2).isSome
  | .error _ => false

/-!
Device state mirror (`Device`, `Device._System`, `Device._Zone`).
Each attribute group is the association list of the instance attributes
created by the corresponding `__init__`, in declaration order, all
initialised to `None` (`JVal.vNull`).
-/

/-- Names of the ten time-profile slot pairs appended by the loop
`for i in range(1, 11)` in `Device._System.__init__`. -/
def timeProfileAttrNames : List String :=
  (List.range 10).flatMap (fun i =>
    ["time_profile_" ++ toString (i + 1) ++ "_name",
     "time_profile_" ++ toString (i + 1) ++ "_data"])

/-- Instance attributes of `Device._System`, in declaration order. -/
def systemAttrNames : List String :=
  ["system_type", "system_version", "system_id", "num_zones", "runtime",
   "modelock", "notification", "notify_time", "humidity", "air_pressure",
   "temperature", "indoor_air_quality", "iaq_accuracy", "fw_app_version",
   "fw_app_version_str", "boot_time"] ++ timeProfileAttrNames

/-- Instance attributes of `Device._Zone`, in declaration order. -/
def zoneAttrNames : List String :=
  ["name", "runtime", "last_filter_change", "speed", "zone_index", "mode",
   "mode_deadline", "target_temp", "target_hmdty_level", "auto_mode_voc",
   "auto_mode_silent", "humidity", "temperature", "hmdty_outdoors",
   "temp_outdoors", "time_profile"]

/-- Fresh `Device._System` attribute dict (every field `None`). -/
def initSystem : List (String × JVal) := systemAttrNames.map (fun a => (a, JVal.vNull))

/-- Fresh `Device._Zone` attribute dict (every field `None`). -/
def initZone : List (String × JVal) := zoneAttrNames.map (fun a => (a, JVal.vNull))

/-- Mutable state of a `Device` handle: the two attribute groups, the two
ChangeSets (`_system_changed` / `_zone_changed`) and the `AUTOSET` flag. -/
structure DeviceState where
  AUTOSET : Bool
  system : List (String × JVal)
  zone : List (String × JVal)
  systemChanged : List (String × JVal)
  zoneChanged : List (String × JVal)
deriving DecidableEq, Repr

/-- Model of the `Device.device_id` property: a string-valued
`self._system.system_id` is returned unchanged; a tagged buffer is rendered
with `''.join(f'{b:02x}' for b in system_id['data']).upper()`; anything
else gives `None`. -/
def device_id (d : DeviceState) : Option String :=
  match dictGet d.system "system_id" with
  | some (JVal.vStr s) => some s
  | some (JVal.vBuf data) => some (String.mk ((data.flatMap fmt02x).map Char.toUpper))
  | _ => none

/-- One half of `Device.fetch`: `for attr in group.__dict__: key =
attr.replace("_", "-"); if key in data: setattr(group, attr, data[key])`.
Attributes whose dash-cased key is absent from the response keep their
previous value (partial merge).  The `except` arm of the loop is
unreachable here: `__setattr__` on these plain objects cannot fail. -/
def mergeGroup (group : List (String × JVal)) (data : List (String × JVal)) :
    List (String × JVal) :=
  group.map (fun p =>
    match dictGet data (dashify p.1) with
    | some w => (p.1, w)
    | none => p)

/-- Model of `Device.fetch`, driven by the bodies the two GETs return
(`none` = the request layer returned `None`).  A falsy System body (absent
or empty) aborts before any merge; a falsy Zone body aborts after the
System merge has already been applied; `true` is returned only when both
groups merged. -/
def fetch (sysResp zoneResp : Option (List (String × JVal))) (d : DeviceState) :
    Bool × DeviceState :=
  match sysResp with
  | none => (false, d)
  | some system_data =>
      if system_data.isEmpty then (false, d)
      else
        let d1 := { d with system := mergeGroup d.system system_data }
        match zoneResp with
        | none => (false, d1)
        | some zone_data =>
            if zone_data.isEmpty then (false, d1)
            else (true, { d1 with zone := mergeGroup d1.zone zone_data })

/-- A PUT issued by `push`: request path and JSON payload. -/
abbrev PutCall : Type := String × List (String × JVal)

/-- Python `f"devices/{self.device_id}/services/{service}"` (a `None`
identifier renders as the string `"None"`). -/
def servicePath (d : DeviceState) (service : String) : String :=
  "devices/" ++ (match device_id d with | some s => s | none => "None")
    ++ "/services/" ++ service

/-- Model of `Device.push`.  `putRes` scripts what
`API._request_put(path, data)` returns; the source binds the responses to
`resp1` / `resp2` and never inspects them (marked `#ToDo check resp code`),
and it clears each ChangeSet immediately after the corresponding PUT,
whatever the outcome.  Nothing in the body can raise, so the
`except` arm is unreachable and the result is always `True`.  The returned
triple also lists the PUTs issued. -/
def push (putRes : String → List (String × JVal) → Option JVal) (d : DeviceState) :
    Bool × DeviceState × List PutCall :=
  let step1 :=
    if d.systemChanged.length ≠ 0 then
      let path := servicePath d "System"
      let _resp1 := putRes path d.systemChanged
      ([((path, d.systemChanged) : PutCall)], { d with systemChanged := [] })
    else ([], d)
  let d1 := step1.2
  let step2 :=
    if d1.zoneChanged.length ≠ 0 then
      let path := servicePath d1 "Zone"
      let _resp2 := putRes path d1.zoneChanged
      ([((path, d1.zoneChanged) : PutCall)], { d1 with zoneChanged := [] })
    else ([], d1)
  (true, step2.2, step1.1 ++ step2.1)

/-- The class tag passed to `Device._key_changed` (the source compares the
`service` argument against the classes `Device._System` / `Device._Zone`). -/
inductive ServiceTag where
  | system
  | zone
  | other
deriving DecidableEq, Repr

/-- Model of `Device._key_changed`: record `key → value` in the group's
ChangeSet; an unknown tag returns `False`; with `AUTOSET` enabled the
freshly recorded change is pushed immediately. -/
def key_changed (putRes : String → List (String × JVal) → Option JVal)
    (d : DeviceState) (service : ServiceTag) (key : String) (value : JVal) :
    Bool × DeviceState × List PutCall :=
  match service with
  | .system =>
      let d1 := { d with systemChanged := dictSet d.systemChanged key value }
      if d1.AUTOSET then push putRes d1 else (true, d1, [])
  | .zone =>
      let d1 := { d with zoneChanged := dictSet d.zoneChanged key value }
      if d1.AUTOSET then push putRes d1 else (true, d1, [])
  | .other => (false, d, [])

/-- Model of the `Device.mode_deadline` setter: assign
`self._zone.mode_deadline` and record the change under the dash-cased wire
key `"mode-deadline"` (the `_key_changed` result is discarded). -/
def mode_deadline_set (putRes : String → List (String × JVal) → Option JVal)
    (d : DeviceState) (value : JVal) : DeviceState × List PutCall :=
  let d1 := { d with zone := dictSet d.zone "mode_deadline" value }
  let r := key_changed putRes d1 ServiceTag.zone "mode-deadline" value
  (r.2.1, r.2.2)

/-- Model of `Device.set_time_profile_name`: out-of-range indices log an
error and return; otherwise the attribute `time_profile_<n>_name` is
assigned and the change is recorded under that same underscore-separated
attribute name (not under a dash-cased key). -/
def set_time_profile_name (putRes : String → List (String × JVal) → Option JVal)
    (d : DeviceState) (number : Int) (value : String) : DeviceState × List PutCall :=
  if number < 1 ∨ number > 10 then (d, [])
  else
    let attr := "time_profile_" ++ toString number ++ "_name"
    let d1 := { d with system := dictSet d.system attr (JVal.vStr value) }
    let r := key_changed putRes d1 ServiceTag.system attr (JVal.vStr value)
    (r.2.1, r.2.2)

/-- Model of `Device.set_time_profile_data`: out-of-range indices log an
error and return.  For an in-range index the next statement is
`if len(list) % 4 != 0`, where `list` is the Python *builtin type object*
(the parameter is named `value`), so every in-range call raises an uncaught
`TypeError` before anything is stored or recorded. -/
def set_time_profile_data (d : DeviceState) (number : Int) (_value : List Nat) :
    Except String DeviceState :=
  if number < 1 ∨ number > 10 then .ok d
  else .error "TypeError"

/-- Model of `Device.get_time_profile_name`: out-of-range indices log an
error and return `""`; otherwise the stored attribute is returned. -/
def get_time_profile_name (d : DeviceState) (number : Int) : Option JVal :=
  if number < 1 ∨ number > 10 then some (JVal.vStr "")
  else dictGet d.system ("time_profile_" ++ toString number ++ "_name")

/-!
Device registry (`API.get_devices`, `API.get_device`).
-/

/-- One pass of the loop in `API.get_devices` over the decoded list of
entries (each entry contributes `entry.get("deviceIdentifier", "")`).
Identifiers whose length differs from 12 are skipped; a kept identifier is
fed to `Device.__init__`, whose hex parse raises an uncaught `ValueError`
on a non-hex pair.  A materialised handle is represented by its parsed
6-byte identity (the constructor's `fetch()` cannot change how many
handles are appended). -/
def getDevicesGo : List (Option String) → Except String (List (List Nat))
  | [] => .ok []
  | e :: rest =>
      let mac := e.getD ""
      if mac.length ≠ 12 then getDevicesGo rest
      else
        match parsePairs mac.data with
        | none => .error "ValueError"
        | some bytes => (getDevicesGo rest).map (fun l => bytes :: l)

/-- Model of `API.get_devices`: a falsy response (`None` or the empty
list) returns `[]` outright; otherwise the new handles are appended to the
persistent `self._devices` (`prior`) and a copy of the accumulated list is
returned. -/
def get_devices (prior : List (List Nat)) (resp : Option (List (Option String))) :
    Except String (List (List Nat)) :=
  match resp with
  | none => .ok []
  | some entries =>
      if entries.isEmpty then .ok []
      else (getDevicesGo entries).map (fun new => prior ++ new)

/-- Model of `API.get_device`: normalize the identifier and linearly scan
the device list (as produced by `get_devices`) for the first handle whose
`device_id` equals it. -/
def get_device (devices : List DeviceState) (deviceID : String) : Option DeviceState :=
  let did := normalizeId deviceID
  devices.find? (fun device => device_id device == some did)

/-!
Concrete states used by witnesses and counterexamples.
-/

/-- Handle for the device `"001A2B3C4D5E"` exactly as `Device.__init__`
builds it when the construction-time `fetch` fails: `system_id` holds the
parsed 6-byte buffer, everything else keeps its initial value. -/
def sampleDevice : DeviceState :=
  { AUTOSET := false
    system := dictSet initSystem "system_id" (JVal.vBuf [0, 26, 43, 60, 77, 94])
    zone := initZone
    systemChanged := []
    zoneChanged := [] }

/-- Request-layer script in which every PUT fails (`_request_put` returns
`None`). -/
def putsFail : String → List (String × JVal) → Option JVal := fun _ _ => none

/-- `sampleDevice` with one pending change in each ChangeSet. -/
def deviceWithPending : DeviceState :=
  { sampleDevice with
    systemChanged := [("notify-time", JVal.vNum 5)]
    zoneChanged := [("mode", JVal.vStr "auto")] }

/-- A device whose `system_id` came back from a fetch as a *lowercase* raw
hex string. -/
def lowercaseStrDevice : DeviceState :=
  { sampleDevice with system := dictSet initSystem "system_id" (JVal.vStr "001a2b3c4d5e") }

/-- A credential file missing the `password` key. -/
def credsMissingPassword : List (String × String) :=
  [("auth_url", "https://auth"), ("api_url", "https://api"), ("username", "u")]

/-- An environment in which both handshake exchanges succeed. -/
def envOk : HEnv :=
  { creds := some [("auth_url", "a"), ("api_url", "b"), ("username", "u"), ("password", "p")]
    authResp := some (200, ⟨some "SUCCESS", some "sess"⟩)
    tokenResp := some (200, ⟨some "api"⟩) }

/-!
General lemmas about the embedded operations.
-/

theorem dictGet_dictSet_self {α : Type} (l : List (String × α)) (k : String) (v : α) :
    dictGet (dictSet l k v) k = some v := by
  induction l with
  | nil => simp [dictSet, dictGet]
  | cons p rest ih =>
      by_cases h : p.1 = k
      · simp [dictSet, dictGet, h]
      · simp [dictSet, dictGet, h, ih]

theorem dictGet_dictSet_other {α : Type} (l : List (String × α)) (k k' : String) (v : α)
    (h : k' ≠ k) : dictGet (dictSet l k v) k' = dictGet l k' := by
  induction l with
  | nil => simp [dictSet, dictGet, Ne.symm h]
  | cons p rest ih =>
      by_cases hpk : p.1 = k
      · simp [dictSet, dictGet, hpk, Ne.symm h]
      · simp [dictSet, dictGet, hpk, ih]

theorem countKey_cons {α : Type} (p : String × α) (rest : List (String × α)) (k : String) :
    countKey (p :: rest) k = (if p.1 = k then 1 else 0) + countKey rest k := by
  by_cases h : p.1 = k
  · simp [countKey, List.filter_cons, h]
    omega
  · simp [countKey, List.filter_cons, h]

theorem countKey_dictSet {α : Type} (l : List (String × α)) (k : String) (v : α)
    (h : countKey l k ≤ 1) : countKey (dictSet l k v) k = 1 := by
  induction l with
  | nil => simp [dictSet, countKey]
  | cons p rest ih =>
      rw [countKey_cons] at h
      by_cases hpk : p.1 = k
      · have h0 : countKey rest k = 0 := by simp [hpk] at h; omega
        simp [dictSet, hpk, countKey_cons, h0]
      · have h1 : countKey rest k ≤ 1 := by simp [hpk] at h; omega
        simp [dictSet, hpk, countKey_cons, ih h1]

theorem request_get_replicate_401 (k : Nat) (rest : List Nat) (conns : List Bool) :
    request_get true (List.replicate k 401 ++ 200 :: rest) (List.replicate k true ++ conns)
      = (some (), k, k + 1) := by
  induction k with
  | zero => simp [request_get]
  | succ n ih => simp [List.replicate_succ, request_get, ih]

theorem request_put_replicate_401 (k : Nat) (rest : List Nat) (conns : List Bool) :
    request_put true (List.replicate k 401 ++ 200 :: rest) (List.replicate k true ++ conns)
      = (some (), k, k + 1) := by
  induction k with
  | zero => simp [request_put]
  | succ n ih => simp [List.replicate_succ, request_put, ih]

/-- C1 (counterexample).  The claim says a 401 leads to *exactly one*
reauthentication and *exactly one* retry "even if the retry itself receives
401 again".  On the code, a GET whose first two responses are 401 (with
both reconnects succeeding) and whose third is 200 performs two
reauthentications and three HTTP attempts (two retries), because the 401
branch re-enters `_request_get` recursively. -/
theorem reauth_second_401_retries_again :
    request_get true [401, 401, 200] [true, true] = (some (), 2, 3) ∧ (2 : Nat) ≠ 1 := by
  decide

/-- C1 (amended).  For GET and PUT alike, while `AUTO_RECONNECT` is on,
*each* 401 response triggers one reauthentication and, if the reconnect
succeeds, one re-issue of the same call: after `k` consecutive 401s
answered by successful reconnects and then a 200, exactly `k`
reauthentications and `k + 1` HTTP attempts (`k` retries) have happened.
A failed reconnect ends the call with no result after that single
reauthentication attempt and no retry.  With `AUTO_RECONNECT` off, a 401
yields no result, no reauthentication and no retry. -/
theorem reauth_retry_per_401 :
    (∀ (k : Nat) (rest : List Nat) (conns : List Bool),
        request_get true (List.replicate k 401 ++ 200 :: rest) (List.replicate k true ++ conns)
          = (some (), k, k + 1))
    ∧ (∀ (rest : List Nat) (conns : List Bool),
        request_get true (401 :: rest) (false :: conns) = (none, 1, 1))
    ∧ (∀ (rest : List Nat) (conns : List Bool),
        request_get false (401 :: rest) conns = (none, 0, 1))
    ∧ (∀ (k : Nat) (rest : List Nat) (conns : List Bool),
        request_put true (List.replicate k 401 ++ 200 :: rest) (List.replicate k true ++ conns)
          = (some (), k, k + 1))
    ∧ (∀ (rest : List Nat) (conns : List Bool),
        request_put true (401 :: rest) (false :: conns) = (none, 1, 1))
    ∧ (∀ (rest : List Nat) (conns : List Bool),
        request_put false (401 :: rest) conns = (none, 0, 1)) := by
  refine ⟨request_get_replicate_401, ?_, ?_, request_put_replicate_401, ?_, ?_⟩
  · intro rest conns
    simp [request_get]
  · intro rest conns
    simp [request_get]
  · intro rest conns
    simp [request_put]
  · intro rest conns
    simp [request_put]

/-- C2 (code bug).  `Device.push` clears each ChangeSet immediately after
issuing the corresponding PUT, without looking at the response: with both
PUTs failing (the request layer returns `None` for each), both pending
changes are still wiped and `push` still reports `True`.  The spec's
invariant — a ChangeSet is preserved when its flush fails — is violated at
this input, a durability gap the spec itself flags (§9). -/
theorem push_clears_changeset_despite_failed_put :
    push putsFail deviceWithPending
      = (true,
         { deviceWithPending with systemChanged := [], zoneChanged := [] },
         [("devices/001A2B3C4D5E/services/System", [("notify-time", JVal.vNum 5)]),
          ("devices/001A2B3C4D5E/services/Zone", [("mode", JVal.vStr "auto")])]) := by
  decide

/-- C3 (counterexample).  With the `password` key missing from the
credential file, `_load_credentials` degrades to `{}` and the payload
construction `credentials['username']` in `_get_session_token` raises an
uncaught `KeyError`: no POST is issued, but the failure is an exception,
not the controlled `ConfigError` the claim describes. -/
theorem missing_credentials_uncaught_keyerror_cex :
    get_session_token (some credsMissingPassword)
        (some (200, ⟨some "SUCCESS", some "tok"⟩))
      = (Except.error "KeyError", false) := by
  rfl

/-- C3 (amended).  If any of the four required credential keys is absent,
no authentication request is issued and the handshake is short-circuited —
but the failure surfaces as an uncaught `KeyError` raised while building
the request payload, not as a controlled error value. -/
theorem missing_credentials_keyerror (credentials : List (String × String))
    (resp : Option (Nat × AuthBody))
    (h : (requiredKeys.all (fun k => (dictGet credentials k).isSome)) = false) :
    get_session_token (some credentials) resp = (Except.error "KeyError", false) := by
  simp [get_session_token, load_credentials, h, dictGet]

/-- Witness for `missing_credentials_keyerror` at a credential file missing
`username`. -/
theorem missing_credentials_keyerror_witness :
    get_session_token (some [("auth_url", "a"), ("api_url", "b"), ("password", "p")]) none
      = (Except.error "KeyError", false) :=
  missing_credentials_keyerror [("auth_url", "a"), ("api_url", "b"), ("password", "p")] none
    (by decide)

theorem get_api_token_return_truthy (session_token : Option String)
    (resp : Option (Nat × TokenBody))
    (h : tokTruthy (get_api_token session_token resp).1 = true) :
    ((get_api_token session_token resp).2).isSome = true := by
  cases resp with
  | none => simp [get_api_token, tokTruthy] at h
  | some p =>
      obtain ⟨status, body⟩ := p
      by_cases hs : status = 200
      · cases hb : body.token with
        | none => simp [get_api_token, hs, hb, tokTruthy] at h
        | some t =>
            by_cases ht : t != ""
            · simp [get_api_token, hs, hb, ht]
            · simp [get_api_token, hs, hb, ht, tokTruthy] at h
      · simp [get_api_token, hs, tokTruthy] at h

/-- C4.  In every run of `connect()`: the token endpoint (API-token
exchange) is contacted only if the session-token exchange returned a
truthy session token — the `or` in
`if not self._get_session_token() or not self._get_api_token()`
short-circuits — and `connect` reports success only when the session
exchange yielded a token and the API exchange stored one. -/
theorem connect_handshake_ordering (env : HEnv) :
    (connectApiAttempted env = true → sessionYielded env = true)
    ∧ (connectSuccess env = true → sessionYielded env = true ∧ apiYielded env = true) := by
  unfold connectApiAttempted connectSuccess sessionYielded apiYielded connect
  cases hg : (get_session_token env.creds env.authResp).1 with
  | error e => simp
  | ok tok =>
      by_cases ht : tokTruthy tok
      · by_cases ha : tokTruthy (get_api_token tok env.tokenResp).1
        · simp [ht, ha, get_api_token_return_truthy tok env.tokenResp ha]
        · simp [ht, ha]
      · simp [ht]

/-- Witness for `connect_handshake_ordering` at an environment where the
whole handshake succeeds. -/
theorem connect_handshake_ordering_witness :
    sessionYielded envOk = true ∧ apiYielded envOk = true :=
  (connect_handshake_ordering envOk).2 (by decide)

theorem mode_deadline_set_eq (putRes : String → List (String × JVal) → Option JVal)
    (d : DeviceState) (v : JVal) (hA : d.AUTOSET = false) :
    mode_deadline_set putRes d v
      = ({ d with
            zone := dictSet d.zone "mode_deadline" v,
            zoneChanged := dictSet d.zoneChanged "mode-deadline" v }, []) := by
  simp [mode_deadline_set, key_changed, hA]

theorem set_time_profile_name_eq (putRes : String → List (String × JVal) → Option JVal)
    (d : DeviceState) (n : Int) (s : String) (hA : d.AUTOSET = false)
    (h1 : 1 ≤ n) (h2 : n ≤ 10) :
    set_time_profile_name putRes d n s
      = ({ d with
            system := dictSet d.system ("time_profile_" ++ toString n ++ "_name") (JVal.vStr s),
            systemChanged :=
              dictSet d.systemChanged ("time_profile_" ++ toString n ++ "_name")
                (JVal.vStr s) }, []) := by
  have hrange : ¬(n < 1 ∨ n > 10) := by omega
  simp [set_time_profile_name, key_changed, hA, hrange]

/-- C5 (counterexample).  The claim keys every recorded change by the
dash-cased wire name.  `set_time_profile_name`, however, records the change
under the underscore attribute name `time_profile_1_name`: the dash-cased
wire form of that attribute is absent from the System ChangeSet. -/
theorem time_profile_setter_underscore_key_cex :
    dictGet ((set_time_profile_name putsFail sampleDevice 1 "Home").1.systemChanged)
        (dashify "time_profile_1_name") = none
    ∧ dictGet ((set_time_profile_name putsFail sampleDevice 1 "Home").1.systemChanged)
        "time_profile_1_name" = some (JVal.vStr "Home")
    ∧ dashify "time_profile_1_name" = "time-profile-1-name" := by
  decide

/-- C5 (amended).  With `AUTOSET` off (changes batched until a flush) and a
well-formed ChangeSet: a property setter such as `mode_deadline` records
exactly one entry under its dash-cased wire name holding the new value,
leaves every other key untouched, and a second call before a flush leaves
exactly one entry holding the latest value; the time-profile setters behave
the same way except that their ChangeSet key is the underscore-separated
attribute name `time_profile_<n>_name`, not a dash-cased one. -/
theorem setter_changeset_entry (putRes : String → List (String × JVal) → Option JVal)
    (d : DeviceState) (v v' : JVal) (n : Int) (s : String)
    (hA : d.AUTOSET = false)
    (hn1 : 1 ≤ n) (hn2 : n ≤ 10)
    (hz : countKey d.zoneChanged "mode-deadline" ≤ 1)
    (hs : countKey d.systemChanged ("time_profile_" ++ toString n ++ "_name") ≤ 1) :
    (countKey ((mode_deadline_set putRes d v).1.zoneChanged) "mode-deadline" = 1
      ∧ dictGet ((mode_deadline_set putRes d v).1.zoneChanged) "mode-deadline" = some v)
    ∧ (∀ k, k ≠ "mode-deadline" →
        dictGet ((mode_deadline_set putRes d v).1.zoneChanged) k = dictGet d.zoneChanged k)
    ∧ (countKey
          ((mode_deadline_set putRes (mode_deadline_set putRes d v).1 v').1.zoneChanged)
          "mode-deadline" = 1
      ∧ dictGet ((mode_deadline_set putRes (mode_deadline_set putRes d v).1 v').1.zoneChanged)
          "mode-deadline" = some v')
    ∧ (countKey ((set_time_profile_name putRes d n s).1.systemChanged)
          ("time_profile_" ++ toString n ++ "_name") = 1
      ∧ dictGet ((set_time_profile_name putRes d n s).1.systemChanged)
          ("time_profile_" ++ toString n ++ "_name") = some (JVal.vStr s)
      ∧ (∀ k, k ≠ "time_profile_" ++ toString n ++ "_name" →
          dictGet ((set_time_profile_name putRes d n s).1.systemChanged) k
            = dictGet d.systemChanged k)) := by
  have h1 := mode_deadline_set_eq putRes d v hA
  refine ⟨?_, ?_, ?_, ?_⟩
  · rw [h1]
    exact ⟨countKey_dictSet _ _ _ hz, dictGet_dictSet_self _ _ _⟩
  · intro k hk
    rw [h1]
    exact dictGet_dictSet_other _ _ _ _ hk
  · have hA' : (mode_deadline_set putRes d v).1.AUTOSET = false := by rw [h1]; exact hA
    have hz' : countKey (mode_deadline_set putRes d v).1.zoneChanged "mode-deadline" ≤ 1 := by
      rw [h1]
      exact le_of_eq (countKey_dictSet _ _ _ hz)
    rw [mode_deadline_set_eq putRes _ v' hA']
    exact ⟨countKey_dictSet _ _ _ hz', dictGet_dictSet_self _ _ _⟩
  · rw [set_time_profile_name_eq putRes d n s hA hn1 hn2]
    exact ⟨countKey_dictSet _ _ _ hs, dictGet_dictSet_self _ _ _,
      fun k hk => dictGet_dictSet_other _ _ _ _ hk⟩

/-- Witness for `setter_changeset_entry` on a fresh device handle. -/
theorem setter_changeset_entry_witness :
    countKey ((mode_deadline_set putsFail sampleDevice (JVal.vNum 5)).1.zoneChanged)
        "mode-deadline" = 1
    ∧ dictGet ((mode_deadline_set putsFail sampleDevice (JVal.vNum 5)).1.zoneChanged)
        "mode-deadline" = some (JVal.vNum 5) :=
  (setter_changeset_entry putsFail sampleDevice (JVal.vNum 5) (JVal.vNum 6) 1 "Home"
    rfl (by decide) (by decide) (by decide) (by decide)).1

/-- C6.  `Device.push` reports success and leaves both ChangeSets empty in
every non-exceptional run (in particular after a successful one), and a
subsequent `push` — whose ChangeSets are then both empty — issues no PUT
and reports success. -/
theorem push_clears_and_empty_push_no_put
    (putRes putRes' : String → List (String × JVal) → Option JVal) (d : DeviceState) :
    (push putRes d).1 = true
    ∧ (push putRes d).2.1.systemChanged = []
    ∧ (push putRes d).2.1.zoneChanged = []
    ∧ (push putRes' ((push putRes d).2.1)).2.2 = []
    ∧ (push putRes' ((push putRes d).2.1)).1 = true := by
  unfold push
  by_cases hs : d.systemChanged.length ≠ 0 <;> by_cases hz : d.zoneChanged.length ≠ 0 <;>
    simp_all

/-- C7 (counterexample).  `get_devices` filters only on identifier length:
an entry whose identifier has 12 characters but is not hexadecimal is
passed to `Device.__init__`, whose hex parse raises an uncaught
`ValueError` — the entry is not silently skipped. -/
theorem get_devices_nonhex_raises_cex :
    get_devices [] (some [some "GGGGGGGGGGGG"]) = Except.error "ValueError" := by
  rfl

/-- C7 (amended).  `get_devices` materializes one handle per entry whose
identifier has exactly 12 characters (hex entries parse to their 6-byte
identity) and silently skips every entry of any other length; in
particular, a response with two 12-hex-character entries and one
8-character entry yields exactly the two corresponding handles. -/
theorem get_devices_length_filter :
    get_devices [] (some [some "001A2B3C4D5E", some "AABBCCDDEEFF", some "12345678"])
      = Except.ok [[0, 26, 43, 60, 77, 94], [170, 187, 204, 221, 238, 255]]
    ∧ ([[0, 26, 43, 60, 77, 94], [170, 187, 204, 221, 238, 255]] : List (List Nat)).length = 2
    ∧ (∀ (e : Option String) (rest : List (Option String)),
        (e.getD "").length ≠ 12 → getDevicesGo (e :: rest) = getDevicesGo rest) := by
  refine ⟨by rfl, by rfl, ?_⟩
  intro e rest h
  simp [getDevicesGo, h]

/-- Witness for `get_devices_length_filter`: the 8-character entry of the
scenario is skipped. -/
theorem get_devices_length_filter_witness :
    getDevicesGo [some "12345678"] = getDevicesGo [] :=
  get_devices_length_filter.2.2 (some "12345678") [] (by decide)

/-- C8 (code bug).  For every in-range index, `set_time_profile_data`
raises an uncaught `TypeError` before storing or recording anything: its
length check reads `len(list) % 4` — `list` being the Python builtin type
object rather than the `value` parameter — so the "multiple of four"
warning path and the store are unreachable.  Shown at the failing input
`number = 1`, `value = [0, 0, 0, 0]`, and for every value at index 5. -/
theorem set_time_profile_data_typeerror :
    set_time_profile_data sampleDevice 1 [0, 0, 0, 0] = Except.error "TypeError"
    ∧ (∀ (d : DeviceState) (value : List Nat),
        set_time_profile_data d 5 value = Except.error "TypeError") := by
  exact ⟨rfl, fun d value => rfl⟩

theorem hexCharsAux_small (fuel n : Nat) (hf : 1 ≤ fuel) (hn : n < 16) :
    hexCharsAux fuel n = [Nat.digitChar n] := by
  cases fuel with
  | zero => omega
  | succ f => simp [hexCharsAux, hn]

theorem fmt02x_eq (b : Nat) (h : b < 256) :
    fmt02x b = [Nat.digitChar (b / 16), Nat.digitChar (b % 16)] := by
  by_cases hb : b < 16
  · have hd : b / 16 = 0 := Nat.div_eq_of_lt hb
    have hm : b % 16 = b := Nat.mod_eq_of_lt hb
    rw [hd, hm]
    simp [fmt02x, hexChars, hexCharsAux, hb, Nat.digitChar]
  · have hd : b / 16 < 16 := by omega
    have hx : hexChars b = [Nat.digitChar (b / 16), Nat.digitChar (b % 16)] := by
      have hb1 : ¬b < 16 := hb
      show hexCharsAux (b + 1) b = _
      rw [show hexCharsAux (b + 1) b
            = hexCharsAux b (b / 16) ++ [Nat.digitChar (b % 16)] by simp [hexCharsAux, hb1]]
      rw [hexCharsAux_small b (b / 16) (by omega) hd]
      rfl
    simp [fmt02x, hx]

theorem digitChar_toUpper_upperhex : ∀ m : Nat, m < 16 →
    isUpperHexDigit ((Nat.digitChar m).toUpper) = true := by
  decide

theorem flat_fmt02x_length (bs : List Nat) (h : ∀ b ∈ bs, b < 256) :
    (bs.flatMap fmt02x).length = 2 * bs.length := by
  induction bs with
  | nil => simp
  | cons b rest ih =>
      have hb : b < 256 := h b (by simp)
      have hr : ∀ x ∈ rest, x < 256 := fun x hx => h x (by simp [hx])
      simp [List.flatMap_cons, fmt02x_eq b hb, ih hr]
      omega

theorem flat_fmt02x_upperhex (bs : List Nat) (h : ∀ b ∈ bs, b < 256) :
    ∀ c ∈ (bs.flatMap fmt02x).map Char.toUpper, isUpperHexDigit c = true := by
  induction bs with
  | nil => simp
  | cons b rest ih =>
      have hb : b < 256 := h b (by simp)
      have hr : ∀ x ∈ rest, x < 256 := fun x hx => h x (by simp [hx])
      intro c hc
      rw [List.flatMap_cons, List.map_append, fmt02x_eq b hb] at hc
      rcases List.mem_append.mp hc with hc1 | hc2
      · have h16a : b / 16 < 16 := by omega
        have h16b : b % 16 < 16 := by omega
        simp only [List.map_cons, List.map_nil, List.mem_cons, List.not_mem_nil,
          or_false] at hc1
        rcases hc1 with rfl | rfl
        · exact digitChar_toUpper_upperhex (b / 16) h16a
        · exact digitChar_toUpper_upperhex (b % 16) h16b
      · exact ih hr c hc2

/-- C9 (counterexample).  When the in-memory `system_id` is a *raw string*,
the `device_id` property returns it unchanged: for the lowercase raw hex
string `"001a2b3c4d5e"` the accessor yields that lowercase string, not the
canonical 12-character *uppercase* form the claim requires for every
in-memory representation (only the buffer branch applies `.upper()`). -/
theorem device_id_lowercase_string_cex :
    device_id lowercaseStrDevice = some "001a2b3c4d5e"
    ∧ some "001a2b3c4d5e" ≠ some (normalizeId "001a2b3c4d5e") := by
  decide

/-- C9 (amended).  A device identifier supplied as `"00:1A:2B:3C:4D:5E"`
and as `"001A2B3C4D5E"` resolves to the same device handle (`get_device`
normalizes its argument before the linear scan).  Reading `device_id`
yields the canonical 12-character uppercase-hex string when the in-memory
form is a tagged 6-byte buffer; a raw-string form is returned unchanged
(so it is canonical only if it was stored uppercase). -/
theorem device_identifier_normalization :
    (∀ devices : List DeviceState,
        get_device devices "00:1A:2B:3C:4D:5E" = get_device devices "001A2B3C4D5E")
    ∧ (∀ (d : DeviceState) (bs : List Nat),
        dictGet d.system "system_id" = some (JVal.vBuf bs) →
        bs.length = 6 → (∀ b ∈ bs, b < 256) →
        device_id d = some (String.mk ((bs.flatMap fmt02x).map Char.toUpper))
          ∧ (String.mk ((bs.flatMap fmt02x).map Char.toUpper)).length = 12
          ∧ (∀ c ∈ (bs.flatMap fmt02x).map Char.toUpper, isUpperHexDigit c = true))
    ∧ (∀ (d : DeviceState) (s : String),
        dictGet d.system "system_id" = some (JVal.vStr s) → device_id d = some s) := by
  refine ⟨?_, ?_, ?_⟩
  · intro devices
    unfold get_device
    rw [show normalizeId "00:1A:2B:3C:4D:5E" = normalizeId "001A2B3C4D5E" by decide]
  · intro d bs hid hlen hbnd
    refine ⟨by simp [device_id, hid], ?_, flat_fmt02x_upperhex bs hbnd⟩
    show ((bs.flatMap fmt02x).map Char.toUpper).length = 12
    rw [List.length_map, flat_fmt02x_length bs hbnd, hlen]
  · intro d s hid
    simp [device_id, hid]

/-- Witness for `device_identifier_normalization` at the 6-byte buffer
`[0x00, 0x1A, 0x2B, 0x3C, 0x4D, 0x5E]`. -/
theorem device_identifier_normalization_witness :
    device_id sampleDevice
        = some (String.mk (([0, 26, 43, 60, 77, 94].flatMap fmt02x).map Char.toUpper))
    ∧ (String.mk (([0, 26, 43, 60, 77, 94].flatMap fmt02x).map Char.toUpper)).length = 12
    ∧ (∀ c ∈ ([0, 26, 43, 60, 77, 94].flatMap fmt02x).map Char.toUpper,
        isUpperHexDigit c = true) :=
  device_identifier_normalization.2.1 sampleDevice [0, 26, 43, 60, 77, 94]
    (by decide) (by decide) (by decide)

/-- C10.  `Device.fetch` is not atomic: when the System response merges but
the Zone request yields no data (`None` or an empty body), `fetch` returns
`False` while the device's System attributes keep the freshly merged
values — the prior state is not restored. -/
theorem fetch_not_atomic_on_zone_failure (d : DeviceState)
    (system_data : List (String × JVal)) (h : system_data ≠ []) :
    fetch (some system_data) none d
        = (false, { d with system := mergeGroup d.system system_data })
    ∧ fetch (some system_data) (some []) d
        = (false, { d with system := mergeGroup d.system system_data }) := by
  cases system_data with
  | nil => exact absurd rfl h
  | cons p rest => simp [fetch]

/-- Witness for `fetch_not_atomic_on_zone_failure`: a System body carrying
a new `temperature` survives the failed Zone half. -/
theorem fetch_not_atomic_on_zone_failure_witness :
    fetch (some [("temperature", JVal.vNum 21)]) none sampleDevice
      = (false,
         { sampleDevice with
            system := mergeGroup sampleDevice.system [("temperature", JVal.vNum 21)] }) :=
  (fetch_not_atomic_on_zone_failure sampleDevice [("temperature", JVal.vNum 21)]
    (by decide)).1

end GetAir
